import Mathlib

/-!
Shallow embedding of the AiChat execution gateway (src/chat_executor.py)
and session manager (src/ws_client.py), with theorems settling the
specification claims about them.

Text is modelled as `List Char` (one element per Unicode code point, matching
Python's per-code-point `str` semantics for `len`, slicing and `in`).
Python's `str.lower()` and `str.strip()` are modelled at ASCII precision
(ASCII letters are lowered, ASCII whitespace is stripped); every string the
claims exercise — the failure keywords, the fallback responses and the
scrub patterns — is unaffected by the non-ASCII corners of those functions.
-/

namespace AiChat

/-- Text as a list of code points. -/
abbrev Str := List Char

/-- ASCII lowering, modelling Python `str.lower()` on the characters the
classifier cares about (ASCII letters; CJK characters are unchanged). -/
def lowerChar (c : Char) : Char :=
  if 'A' ≤ c ∧ c ≤ 'Z' then Char.ofNat (c.toNat + 32) else c

/-- Lower a whole string. -/
def lowerStr (s : Str) : Str := s.map lowerChar

/-- ASCII whitespace, modelling the characters Python `str.strip()` removes
from the outputs at hand. -/
def isPyWhitespace (c : Char) : Bool :=
  c = ' ' ∨ c = '\t' ∨ c = '\n' ∨ c = '\r' ∨ c = Char.ofNat 11 ∨ c = Char.ofNat 12

/-- Python `str.strip()`: drop whitespace from both ends. -/
def pyStrip (s : Str) : Str :=
  ((s.dropWhile isPyWhitespace).reverse.dropWhile isPyWhitespace).reverse

/-- Boolean prefix test on code-point lists. -/
def isPrefixB : Str → Str → Bool
  | [], _ => true
  | _ :: _, [] => false
  | p :: ps, c :: cs => p = c && isPrefixB ps cs

/-- First occurrence of `pat` in `s`: `some (before, after)` splits `s` as
`before ++ pat ++ after` at the leftmost match, `none` if `pat` does not
occur.  This is Python's leftmost substring search. -/
def findSplit (pat : Str) : Str → Option (Str × Str)
  | [] => if isPrefixB pat [] then some ([], []) else none
  | c :: cs =>
    if isPrefixB pat (c :: cs) then some ([], (c :: cs).drop pat.length)
    else match findSplit pat cs with
      | some (pre, post) => some (c :: pre, post)
      | none => none

/-- Python's `pat in s` substring test. -/
def isInfixB (pat s : Str) : Bool := (findSplit pat s).isSome

/-- Case-insensitive first occurrence, modelling `re.IGNORECASE` matching of
a literal pattern: compare the lowered strings but keep the original
characters of the remainder. -/
def findSplitCI (pat : Str) : Str → Option (Str × Str)
  | [] => if isPrefixB (lowerStr pat) [] then some ([], []) else none
  | c :: cs =>
    if isPrefixB (lowerStr pat) (lowerStr (c :: cs)) then
      some ([], (c :: cs).drop pat.length)
    else match findSplitCI pat cs with
      | some (pre, post) => some (c :: pre, post)
      | none => none

/-- Opening marker of the execution-metadata block
(`EXECUTION_INFO_PATTERN`, src/chat_executor.py line 26). -/
def execInfoOpen : Str := "<Execution Info>".data

/-- Closing marker of the execution-metadata block. -/
def execInfoClose : Str := "</Execution Info>".data

/-- The OAuth2 housekeeping notice scrubbed case-insensitively
(src/chat_executor.py line 120). -/
def oauthNotice : Str := "OAuth2 令牌刷新成功".data

/-- One pass of `EXECUTION_INFO_PATTERN.sub('', s)` with fuel: repeatedly
delete the region from the leftmost `<Execution Info>` to the nearest
following `</Execution Info>` (non-greedy `.*?` with `re.DOTALL`), and
continue scanning after the deleted region, exactly as `re.sub` does.  If
the leftmost opening marker has no closing marker after it, nothing more
matches and the remainder is kept. -/
def subExecInfoAux : Nat → Str → Str
  | 0, s => s
  | fuel + 1, s =>
    match findSplit execInfoOpen s with
    | none => s
    | some (pre, midPost) =>
      match findSplit execInfoClose midPost with
      | none => s
      | some (_, post) => pre ++ subExecInfoAux fuel post

/-- Delete every execution-metadata block (`fuel := s.length` always
suffices: each deletion consumes at least the nonempty markers). -/
def subExecInfo (s : Str) : Str := subExecInfoAux s.length s

/-- Case-insensitive deletion of every occurrence of a literal pattern,
modelling `re.compile(pat, re.IGNORECASE).sub('', s)`. -/
def subAllCIAux (pat : Str) : Nat → Str → Str
  | 0, s => s
  | fuel + 1, s =>
    match findSplitCI pat s with
    | none => s
    | some (pre, post) => pre ++ subAllCIAux pat fuel post

/-- Delete every case-insensitive occurrence of `pat`. -/
def subAllCI (pat s : Str) : Str := subAllCIAux pat s.length s

/-- The cleaned text of a raw output: strip execution-metadata blocks then
whitespace, strip OAuth2 notices then whitespace
(src/chat_executor.py lines 116-121). -/
def cleanedText (s : Str) : Str :=
  pyStrip (subAllCI oauthNotice (pyStrip (subExecInfo s)))

/-- The failure keyword set (src/chat_executor.py line 124). -/
def error_keywords : List Str :=
  ["error".data, "错误".data, "failed".data, "失败".data,
   "exception".data, "异常".data]

/-- Python `any(kw in output.lower() for kw in error_keywords)`. -/
def containsErrorKeyword (s : Str) : Bool :=
  error_keywords.any (fun kw => isInfixB kw (lowerStr s))

/-- The fixed friendly fallback responses (src/chat_executor.py lines 39-45). -/
def friendly_responses : List Str :=
  ["抱歉，我有些迷糊，能再说一遍吗？".data,
   "嗯... 刚才好像走神了，能重复一下吗？".data,
   "我没太明白，换种说法试试？".data,
   "抱歉，我没听清楚，能再说一次吗？".data,
   "这个问题有点复杂，我需要想想...".data]

/-- The fallback for a missing AI CLI (src/chat_executor.py line 144). -/
def notFoundResponse : Str := "AI命令未安装，请检查配置。".data

/-- The fallback for an async-result-wait timeout
(src/chat_executor.py line 163). -/
def asyncTimeoutResponse : Str := "处理超时，请稍后再试。".data

/-- The fallback for a fault while unwrapping the async result
(src/chat_executor.py line 165). -/
def asyncInternalResponse : Str := "抱歉，出了点问题，请重试。".data

/-- Classification of an output string: the body of the `try` block of
`execute_chat` after `_call_ai` returned (src/chat_executor.py
lines 116-137): clean, then keyword check, then emptiness, then minimum
length, else the cleaned text verbatim. -/
def classifyOutput (output : Str) : Str :=
  if containsErrorKeyword (cleanedText output) then friendly_responses.getD 0 []
  else if (cleanedText output).isEmpty then friendly_responses.getD 1 []
  else if (cleanedText output).length < 5 then friendly_responses.getD 2 []
  else cleanedText output

/-- Outcome of the external invocation `_call_ai` as observed by
`execute_chat`'s `try`/`except` blocks: captured stdout, a
`subprocess.TimeoutExpired`, a `FileNotFoundError`, or any other
`Exception`. -/
inductive CallOutcome where
  | ok (stdout : Str)
  | timeoutExpired
  | fileNotFound
  | otherException
deriving DecidableEq

/-- The execution gateway `execute_chat` (src/chat_executor.py
lines 102-147) as a total function of the invocation outcome; `_call_ai`
itself strips its captured stdout (line 100) before classification. -/
def execute_chat : CallOutcome → Str
  | .ok stdout => classifyOutput (pyStrip stdout)
  | .timeoutExpired => friendly_responses.getD 3 []
  | .fileNotFound => notFoundResponse
  | .otherException => friendly_responses.getD 0 []

/-- The fixed fallback pool of the gateway: the five friendly responses and
the not-installed message. -/
def fallbackPool : List Str := friendly_responses ++ [notFoundResponse]

/-! ## The asynchronous gateway operation

`execute_chat_async` (src/chat_executor.py lines 149-165) submits
`execute_chat` to the pool, then — still on the calling thread — waits on
`future.result(timeout=self.timeout)` and invokes the callback inside a
`try` with two `except` clauses (`FutureTimeoutError`, then `Exception`).
An exception raised inside the `try` body (including one raised by the
first callback invocation) is dispatched to the matching `except` clause,
which invokes the callback again; an exception raised inside an `except`
clause propagates. -/

/-- What `future.result(timeout=...)` does: delivers the completed
`execute_chat` value, raises `FutureTimeoutError` when the wait deadline
elapses, or raises some other exception while unwrapping the result. -/
inductive FutureOutcome where
  | completed (res : Str)
  | waitTimeout
  | waitFault
deriving DecidableEq

/-- Behaviour of one callback invocation: return normally, raise
`concurrent.futures.TimeoutError`, or raise any other exception. -/
inductive CbBehavior where
  | ok
  | raiseFutureTimeoutErr
  | raiseOther
deriving DecidableEq

/-- The observable effect of one `execute_chat_async` call: the arguments
of the successive callback invocations, in order, and whether an exception
escapes the function.  `cb n` is the behaviour of the `n`-th callback
invocation. -/
def execute_chat_async (fo : FutureOutcome) (cb : Nat → CbBehavior) :
    List Str × Bool :=
  match fo with
  | .completed r =>
    match cb 0 with
    | .ok => ([r], false)
    | .raiseFutureTimeoutErr =>
      -- caught by `except FutureTimeoutError`; a raise inside that handler
      -- propagates
      ([r, asyncTimeoutResponse], cb 1 ≠ .ok)
    | .raiseOther =>
      -- caught by `except Exception`; a raise inside that handler propagates
      ([r, asyncInternalResponse], cb 1 ≠ .ok)
  | .waitTimeout => ([asyncTimeoutResponse], cb 0 ≠ .ok)
  | .waitFault => ([asyncInternalResponse], cb 0 ≠ .ok)

/-- One step the calling thread of `execute_chat_async` performs before the
call returns. -/
inductive CallerStep where
  | submitToPool
  | awaitFuture (timeoutSecs : Nat)
  | invokeCallback (msg : Str)
deriving DecidableEq

/-- The trace of the calling thread of `execute_chat_async`: it submits,
then blocks on `future.result(timeout=self.timeout)`, then performs every
callback invocation itself (src/chat_executor.py lines 158-165 all execute
on the caller's thread). -/
def execute_chat_async_callerTrace (timeoutSecs : Nat) (fo : FutureOutcome)
    (cb : Nat → CbBehavior) : List CallerStep :=
  .submitToPool :: .awaitFuture timeoutSecs ::
    (execute_chat_async fo cb).1.map .invokeCallback

/-- The configured deadline `AI_COMMAND_TIMEOUT` (src/chat_config.py
line 13), used both for the subprocess and for the async-result wait. -/
def AI_COMMAND_TIMEOUT : Nat := 60

/-! ## JSON values and serialization

`WSClient.send` writes `json.dumps(data)`.  Frames are objects built from
strings and integers; `jsonDumps` models `json.dumps` with its defaults
(`ensure_ascii=True`, separators `", "` and `": "`). -/

mutual
/-- A JSON value as built by the client: string, integer, or object. -/
inductive JValue where
  | jstr : Str → JValue
  | jint : Int → JValue
  | jobj : JObj → JValue
/-- The field list of a JSON object. -/
inductive JObj where
  | nil : JObj
  | cons : Str → JValue → JObj → JObj
end

/-- One hex digit, lowercase, as in Python's `\uXXXX` escapes. -/
def hexDigit (n : Nat) : Char :=
  if n < 10 then Char.ofNat (48 + n) else Char.ofNat (87 + n)

/-- Four lowercase hex digits of a 16-bit value. -/
def u16Hex (n : Nat) : Str :=
  [hexDigit (n / 4096 % 16), hexDigit (n / 256 % 16),
   hexDigit (n / 16 % 16), hexDigit (n % 16)]

/-- Escape one character as Python `json.dumps` does with
`ensure_ascii=True`: backslash-escape the quote, backslash and common
controls, `\uXXXX` for other controls and all non-ASCII code points
(surrogate pairs above the BMP). -/
def escChar (c : Char) : Str :=
  if c = '"' then ['\\', '"']
  else if c = '\\' then ['\\', '\\']
  else if c = '\n' then ['\\', 'n']
  else if c = '\r' then ['\\', 'r']
  else if c = '\t' then ['\\', 't']
  else if c.toNat = 8 then ['\\', 'b']
  else if c.toNat = 12 then ['\\', 'f']
  else if c.toNat < 32 then '\\' :: 'u' :: u16Hex c.toNat
  else if c.toNat < 128 then [c]
  else if c.toNat ≤ 65535 then '\\' :: 'u' :: u16Hex c.toNat
  else
    let v := c.toNat - 65536
    ('\\' :: 'u' :: u16Hex (55296 + v / 1024)) ++
      ('\\' :: 'u' :: u16Hex (56320 + v % 1024))

/-- Escape a whole string body. -/
def escStr (s : Str) : Str := s.foldr (fun c acc => escChar c ++ acc) []

mutual
/-- Python `json.dumps` with default options, on the value shapes the
client sends. -/
def jsonDumps : JValue → Str
  | .jstr s => '"' :: escStr s ++ ['"']
  | .jint n => (toString n).data
  | .jobj fs => Char.ofNat 123 :: jsonDumpsFields fs ++ [Char.ofNat 125]
/-- Serialize object fields with Python's default `", "` / `": "`
separators. -/
def jsonDumpsFields : JObj → Str
  | .nil => []
  | .cons k v .nil => jsonDumps (.jstr k) ++ ':' :: ' ' :: jsonDumps v
  | .cons k v (.cons k2 v2 rest) =>
    jsonDumps (.jstr k) ++ ':' :: ' ' :: jsonDumps v ++ ',' :: ' ' ::
      jsonDumpsFields (.cons k2 v2 rest)
end

/-! ## The WebSocket client state machine

The mutable state of `WSClient` (src/ws_client.py lines 46-49) is the
handle `ws : Optional[WebSocketApp]`, the flag `connected : bool` and the
stop flag `_should_stop`.  Handles are modelled as `Nat` identities.  The
events are the state-mutating steps of the connect loop and the transport
callbacks, each updating the state exactly as the corresponding Python
lines do. -/

/-- The mutable fields of `WSClient`. -/
structure WSState where
  ws : Option Nat
  connected : Bool
  shouldStop : Bool
deriving DecidableEq

/-- The state at construction (src/ws_client.py lines 46-49). -/
def initWSState : WSState := ⟨none, false, false⟩

/-- State-mutating events of the client. -/
inductive WSEvent where
  /-- The connect loop assigns `self.ws = websocket.WebSocketApp(...)`
  before the transport opens (src/ws_client.py line 151). -/
  | loopAssign (h : Nat)
  /-- `_on_open`: sets `connected = True` and `ws` to the open handle
  (src/ws_client.py lines 56-63). -/
  | openEv (h : Nat)
  /-- `_on_error`: sets `connected = False`, leaves `ws` unchanged
  (src/ws_client.py lines 74-80). -/
  | errorEv
  /-- `_on_close`: sets `connected = False` and `ws = None`
  (src/ws_client.py lines 82-89). -/
  | closeEv
  /-- `disconnect`: sets the stop flag, closes the transport if open, and
  sets `connected = False`, leaving the `ws` field assigned
  (src/ws_client.py lines 172-179). -/
  | disconnectEv
deriving DecidableEq

/-- The state transition of one event. -/
def wsStep (st : WSState) : WSEvent → WSState
  | .loopAssign h => { st with ws := some h }
  | .openEv h => { st with connected := true, ws := some h }
  | .errorEv => { st with connected := false }
  | .closeEv => { st with connected := false, ws := none }
  | .disconnectEv => { st with shouldStop := true, connected := false }

/-- The state reached from construction after a sequence of events. -/
def wsRun (evs : List WSEvent) : WSState := evs.foldl wsStep initWSState

/-- The `send` method (src/ws_client.py lines 91-112) as a function of the
state: returns the boolean result and the frame handed to
`self.ws.send(json.dumps(data))`, if any.  `sendOk` models whether the
transport write inside the `try` block succeeds or raises.  The method
first checks `is_connected()`; only then, under the lock, does it check the
handle and write. -/
def wsSend (st : WSState) (data : JValue) (sendOk : Bool) :
    Bool × Option Str :=
  if st.connected then
    match st.ws with
    | none => (true, none)
    | some _ =>
      if sendOk then (true, some (jsonDumps data))
      else (false, some (jsonDumps data))
  else (false, none)

/-- The `{action, params}` frame of `send_private_msg`
(src/ws_client.py lines 114-122). -/
def privateMsgFrame (user_id : Int) (message : Str) : JValue :=
  .jobj (.cons "action".data (.jstr "send_private_msg".data)
    (.cons "params".data (.jobj (.cons "user_id".data (.jint user_id)
      (.cons "message".data (.jstr message) .nil))) .nil))

/-- The `{action, params}` frame of `send_group_msg`
(src/ws_client.py lines 124-132). -/
def groupMsgFrame (group_id : Int) (message : Str) : JValue :=
  .jobj (.cons "action".data (.jstr "send_group_msg".data)
    (.cons "params".data (.jobj (.cons "group_id".data (.jint group_id)
      (.cons "message".data (.jstr message) .nil))) .nil))

/-! ## Inbound-frame dispatch -/

/-- Behaviour of the registered message handler on one frame: return,
raise `json.JSONDecodeError`, or raise any other exception. -/
inductive HandlerOutcome where
  | ok
  | raiseJsonDecodeError
  | raiseOther
deriving DecidableEq

/-- The observable result of `_on_message` on one frame. -/
inductive Dispatch where
  /-- The handler ran to completion on the parsed value. -/
  | delivered (v : JValue)
  /-- A `json.JSONDecodeError` was caught: the frame is logged and dropped. -/
  | droppedLogged
  /-- An uncaught exception escapes `_on_message` to the transport layer. -/
  | propagatedFault
  /-- No handler is registered; the parsed value is discarded. -/
  | ignoredNoHandler

/-- `_on_message` (src/ws_client.py lines 65-72): `json.loads` and the
handler call both run inside one `try` whose only `except` clause catches
`json.JSONDecodeError`.  `frame = none` models a frame that is not valid
JSON (`json.loads` raises). -/
def on_message (frame : Option JValue) (handlerRegistered : Bool)
    (h : HandlerOutcome) : Dispatch :=
  match frame with
  | none => .droppedLogged
  | some v =>
    if handlerRegistered then
      match h with
      | .ok => .delivered v
      | .raiseJsonDecodeError => .droppedLogged
      | .raiseOther => .propagatedFault
    else .ignoredNoHandler

/-! ## Helper lemmas -/

/-- Every string of the fixed fallback pool is non-empty. -/
theorem fallbackPool_ne_nil : ∀ x ∈ fallbackPool, x ≠ [] := by decide

/-- The classifier either returns a member of the fallback pool or the
cleaned text, which in that case is non-empty. -/
theorem classifyOutput_cases (s : Str) :
    classifyOutput s ∈ fallbackPool ∨
      (classifyOutput s = cleanedText s ∧ classifyOutput s ≠ []) := by
  unfold classifyOutput
  by_cases h1 : containsErrorKeyword (cleanedText s) = true
  · rw [if_pos h1]; left; decide
  · rw [if_neg h1]
    by_cases h2 : (cleanedText s).isEmpty = true
    · rw [if_pos h2]; left; decide
    · rw [if_neg h2]
      by_cases h3 : (cleanedText s).length < 5
      · rw [if_pos h3]; left; decide
      · rw [if_neg h3]
        right
        refine ⟨rfl, fun hnil => h2 ?_⟩
        rw [hnil]
        rfl

/-- One client event preserves the one-way handle invariant. -/
theorem wsStep_preserves_handle (st : WSState)
    (h : st.connected = true → st.ws.isSome = true) (ev : WSEvent) :
    (wsStep st ev).connected = true → (wsStep st ev).ws.isSome = true := by
  cases ev <;> simp [wsStep] <;> intro hc <;> exact h hc

/-- The one-way invariant along a fold from any state satisfying it. -/
theorem wsFold_connected_isSome (evs : List WSEvent) :
    ∀ st : WSState, (st.connected = true → st.ws.isSome = true) →
      (evs.foldl wsStep st).connected = true →
        (evs.foldl wsStep st).ws.isSome = true := by
  induction evs with
  | nil => exact fun st h => h
  | cons e es ih =>
    intro st h
    exact ih (wsStep st e) (wsStep_preserves_handle st h e)

/-- In every reachable state, a set connected flag implies a present
handle. -/
theorem wsRun_connected_isSome (evs : List WSEvent) :
    (wsRun evs).connected = true → (wsRun evs).ws.isSome = true :=
  wsFold_connected_isSome evs initWSState (by intro h; cases h)

/-! ## Claim theorems -/

/-- C1: for every outcome of the external invocation — captured output,
timeout, command not found, or any other fault — `execute_chat` returns a
non-empty string that is either the cleaned output or one of the fixed
fallback strings; as a total function of the outcome it propagates no
exception to its caller. -/
theorem execute_chat_total_displayable (o : CallOutcome) :
    execute_chat o ≠ [] ∧
      (execute_chat o ∈ fallbackPool ∨
        ∃ s, o = .ok s ∧ execute_chat o = cleanedText (pyStrip s)) := by
  cases o with
  | ok s =>
    rcases classifyOutput_cases (pyStrip s) with h | ⟨h1, h2⟩
    · exact ⟨fallbackPool_ne_nil _ h, Or.inl h⟩
    · exact ⟨h2, Or.inr ⟨s, rfl, h1⟩⟩
  | timeoutExpired => exact ⟨by decide, Or.inl (by decide)⟩
  | fileNotFound => exact ⟨by decide, Or.inl (by decide)⟩
  | otherException => exact ⟨by decide, Or.inl (by decide)⟩

/-- C2 counterexample: when the first callback invocation raises on the
normal-completion path, the callback is invoked twice, not exactly once —
the raise is caught by the `except Exception` clause, which invokes the
callback again with the internal-failure message. -/
theorem callback_double_invocation_counterexample :
    (execute_chat_async (.completed "hi".data)
        (fun n => if n = 0 then .raiseOther else .ok)).1.length ≠ 1 := by
  decide

/-- C2 amended: the callback is invoked exactly once with an
ExecutionResult provided its first invocation returns normally; if the
first invocation raises a generic exception on the normal-completion path,
the callback is invoked a second time with the internal-failure message. -/
theorem callback_invocation_spec (fo : FutureOutcome) (cb : Nat → CbBehavior) :
    (cb 0 = .ok → (execute_chat_async fo cb).1 =
      [match fo with
       | .completed r => r
       | .waitTimeout => asyncTimeoutResponse
       | .waitFault => asyncInternalResponse]) ∧
    (∀ r, fo = .completed r → cb 0 = .raiseOther →
      (execute_chat_async fo cb).1 = [r, asyncInternalResponse]) := by
  constructor
  · intro h0
    cases fo <;> simp [execute_chat_async, h0]
  · rintro r rfl h0
    simp [execute_chat_async, h0]

/-- C2 witness: a non-raising callback on a wait timeout is invoked exactly
once, with the async timeout fallback. -/
theorem callback_invocation_spec_witness :
    (execute_chat_async .waitTimeout (fun _ => .ok)).1 =
      [asyncTimeoutResponse] :=
  (callback_invocation_spec .waitTimeout (fun _ => .ok)).1 rfl

/-- C3 counterexample: after the connect loop assigns the freshly built
transport app to `self.ws` (before the transport opens), the handle is
non-null while the connected flag is still false, so the claimed iff
invariant fails in a reachable state. -/
theorem ws_handle_connected_iff_counterexample :
    ¬((wsRun [.loopAssign 0]).ws.isSome = (wsRun [.loopAssign 0]).connected) := by
  decide

/-- C3 amended: in every reachable state of the client, a set connected
flag implies a non-null handle; the converse direction fails (the connect
loop assigns the handle before opening, and `_on_error` clears the flag
without clearing the handle). -/
theorem ws_connected_implies_handle (evs : List WSEvent)
    (h : (wsRun evs).connected = true) : (wsRun evs).ws.isSome = true :=
  wsRun_connected_isSome evs h

/-- C3 witness: after a successful open the invariant applies — the handle
is present. -/
theorem ws_connected_implies_handle_witness :
    (wsRun [.openEv 0]).ws.isSome = true :=
  ws_connected_implies_handle [.openEv 0] (by decide)

/-- C4: an output whose cleaned text contains a failure keyword classifies
as OUTPUT_ERROR (the first fallback string) even when that cleaned text is
shorter than 5 characters — the keyword check precedes the emptiness and
minimum-length checks, so the result is not the SHORT_OUTPUT fallback. -/
theorem keyword_precedes_short (raw : Str)
    (hk : containsErrorKeyword (cleanedText raw) = true)
    (hlen : (cleanedText raw).length < 5) :
    classifyOutput raw = friendly_responses.getD 0 [] ∧
      classifyOutput raw ≠ friendly_responses.getD 2 [] := by
  unfold classifyOutput
  rw [if_pos hk]
  exact ⟨rfl, by decide⟩

/-- C4 witness: the two-character output consisting of the Chinese failure
keyword classifies as OUTPUT_ERROR, not SHORT_OUTPUT. -/
theorem keyword_precedes_short_witness :
    classifyOutput "错误".data = friendly_responses.getD 0 [] ∧
      classifyOutput "错误".data ≠ friendly_responses.getD 2 [] :=
  keyword_precedes_short "错误".data (by decide) (by decide)

/-- C5 counterexample: the calling thread of `execute_chat_async` does
block and does run the callback itself — its trace contains the blocking
wait on the future and the callback invocation. -/
theorem caller_blocks_counterexample :
    CallerStep.awaitFuture AI_COMMAND_TIMEOUT ∈
        execute_chat_async_callerTrace AI_COMMAND_TIMEOUT
          (.completed "hi".data) (fun _ => .ok) ∧
      CallerStep.invokeCallback "hi".data ∈
        execute_chat_async_callerTrace AI_COMMAND_TIMEOUT
          (.completed "hi".data) (fun _ => .ok) := by
  decide

/-- C5 amended: `execute_chat_async` submits the work to the pool but then
blocks the calling thread on the future for up to the configured deadline,
and every callback invocation is performed by the calling thread before
the call returns. -/
theorem caller_thread_trace_spec (t : Nat) (fo : FutureOutcome)
    (cb : Nat → CbBehavior) :
    CallerStep.awaitFuture t ∈ execute_chat_async_callerTrace t fo cb ∧
      ∀ m ∈ (execute_chat_async fo cb).1,
        CallerStep.invokeCallback m ∈ execute_chat_async_callerTrace t fo cb := by
  constructor
  · exact List.mem_cons_of_mem _ (List.mem_cons_self _ _)
  · intro m hm
    exact List.mem_cons_of_mem _
      (List.mem_cons_of_mem _ (List.mem_map_of_mem _ hm))

/-- C5 witness: on a completed run with deadline 60, the caller-thread
trace contains the invocation of the callback with the completed result. -/
theorem caller_thread_trace_spec_witness :
    CallerStep.invokeCallback "hi".data ∈
      execute_chat_async_callerTrace 60 (.completed "hi".data)
        (fun _ => .ok) :=
  (caller_thread_trace_spec 60 (.completed "hi".data) (fun _ => .ok)).2
    "hi".data (by decide)

/-- C6 counterexample: the subprocess-timeout fallback of `execute_chat`
and the async-result-wait timeout fallback of `execute_chat_async` are two
different strings, not the same one. -/
theorem timeout_fallback_counterexample :
    execute_chat .timeoutExpired = friendly_responses.getD 3 [] ∧
      (execute_chat_async .waitTimeout (fun _ => .ok)).1 =
        [asyncTimeoutResponse] ∧
      friendly_responses.getD 3 [] ≠ asyncTimeoutResponse := by
  refine ⟨rfl, rfl, by decide⟩

/-- C6 amended: a subprocess deadline expiry surfaces as the fourth
friendly response while an async-result-wait expiry surfaces as the
dedicated wait-timeout message; both are fixed fallback strings but they
are distinct. -/
theorem timeout_fallbacks_distinct (cb : Nat → CbBehavior) :
    execute_chat .timeoutExpired = friendly_responses.getD 3 [] ∧
      (execute_chat_async .waitTimeout cb).1 = [asyncTimeoutResponse] ∧
      friendly_responses.getD 3 [] ≠ asyncTimeoutResponse := by
  refine ⟨rfl, rfl, by decide⟩

/-- C7: in every reachable state, `send` with a down connected flag returns
false and hands nothing to the transport; with the flag up (the handle is
then present by the reachable-state invariant) it hands exactly the
JSON-serialized frame to the transport and returns true when the write
succeeds, false — without raising — when it fails. -/
theorem send_state_spec (evs : List WSEvent) (data : JValue) (sendOk : Bool) :
    ((wsRun evs).connected = false →
      wsSend (wsRun evs) data sendOk = (false, none)) ∧
    ((wsRun evs).connected = true →
      wsSend (wsRun evs) data sendOk =
        if sendOk then (true, some (jsonDumps data))
        else (false, some (jsonDumps data))) := by
  constructor
  · intro h
    unfold wsSend
    rw [h]
    simp
  · intro h
    rcases Option.isSome_iff_exists.mp (wsRun_connected_isSome evs h) with ⟨k, hk⟩
    unfold wsSend
    rw [h, hk]
    cases sendOk <;> simp

/-- C7 witness: right after a successful open, a successful send of a
string frame returns true and writes its serialization. -/
theorem send_state_spec_witness :
    wsSend (wsRun [.openEv 1]) (.jstr "hi".data) true =
      (true, some (jsonDumps (.jstr "hi".data))) := by
  have h := (send_state_spec [.openEv 1] (.jstr "hi".data) true).2 (by decide)
  simpa using h

/-- C8 counterexample: deleting a metadata block can splice the
surrounding text into a new marker pair, so the cleaned text of this raw
output is keyword-free and well over 5 characters, is returned verbatim by
`execute_chat`, and yet classifying the returned text again strips it to
nothing and yields a fallback instead of the same text — the claimed
idempotence fails. -/
theorem clean_reclassify_counterexample :
    containsErrorKeyword (cleanedText (pyStrip
        "<Execution Inf<Execution Info>junk</Execution Info>o>payload</Execution Info>".data)) = false ∧
      5 ≤ (cleanedText (pyStrip
        "<Execution Inf<Execution Info>junk</Execution Info>o>payload</Execution Info>".data)).length ∧
      execute_chat (.ok
          "<Execution Inf<Execution Info>junk</Execution Info>o>payload</Execution Info>".data) =
        cleanedText (pyStrip
          "<Execution Inf<Execution Info>junk</Execution Info>o>payload</Execution Info>".data) ∧
      classifyOutput (execute_chat (.ok
          "<Execution Inf<Execution Info>junk</Execution Info>o>payload</Execution Info>".data)) ≠
        execute_chat (.ok
          "<Execution Inf<Execution Info>junk</Execution Info>o>payload</Execution Info>".data) := by
  decide

/-- C8 amended: when the cleaned text is at least 5 characters long and
keyword-free, the classifier returns it verbatim; classifying the returned
text again yields the same text provided that text is itself a fixed point
of the cleaning pass (in particular when it contains no residual metadata
markers or housekeeping notices) — without that proviso re-classification
can differ. -/
theorem clean_classify_verbatim (s : Str)
    (hk : containsErrorKeyword (cleanedText s) = false)
    (hlen : 5 ≤ (cleanedText s).length) :
    classifyOutput s = cleanedText s ∧
      (cleanedText (cleanedText s) = cleanedText s →
        classifyOutput (cleanedText s) = cleanedText s) := by
  have hne : (cleanedText s).isEmpty = false := by
    cases hcl : cleanedText s with
    | nil => rw [hcl] at hlen; exact absurd hlen (by decide)
    | cons a l => rfl
  have hnl : ¬((cleanedText s).length < 5) := not_lt.mpr hlen
  constructor
  · unfold classifyOutput
    rw [if_neg (by simp [hk]), if_neg (by simp [hne]), if_neg hnl]
  · intro hfix
    unfold classifyOutput
    rw [hfix]
    rw [if_neg (by simp [hk]), if_neg (by simp [hne]), if_neg hnl]

/-- C8 witness: a plain five-character output is returned verbatim and
re-classifying it returns it again. -/
theorem clean_classify_verbatim_witness :
    classifyOutput "hello".data = cleanedText "hello".data ∧
      (cleanedText (cleanedText "hello".data) = cleanedText "hello".data →
        classifyOutput (cleanedText "hello".data) = cleanedText "hello".data) :=
  clean_classify_verbatim "hello".data (by decide) (by decide)

/-- C9: in any state whose connected flag is true while the handle field
is `None`, `send` returns true and hands nothing to the transport — the
connectivity check and the locked handle check are two separate steps, and
the missing handle is silently reported as success. -/
theorem send_connected_no_handle (b : Bool) (data : JValue) (sendOk : Bool) :
    wsSend ⟨none, true, b⟩ data sendOk = (true, none) := rfl

/-- C10 counterexample: a handler that raises `json.JSONDecodeError` on a
valid JSON frame is caught by the dispatch `except` clause — the frame is
logged and dropped, and no exception propagates, contrary to the claim
that handler exceptions always propagate and only non-JSON frames are
dropped. -/
theorem handler_decode_error_caught_counterexample :
    on_message (some (.jobj .nil)) true .raiseJsonDecodeError =
        .droppedLogged ∧
      on_message (some (.jobj .nil)) true .raiseJsonDecodeError ≠
        .propagatedFault :=
  ⟨rfl, fun h => Dispatch.noConfusion h⟩

/-- C10 amended: the dispatch `try` block wraps both the parse and the
handler call and catches exactly `json.JSONDecodeError`: a non-JSON frame
is logged and dropped, a handler-raised `JSONDecodeError` is likewise
caught and dropped, any other handler exception propagates to the
transport layer, and a normal handler run delivers the parsed value. -/
theorem on_message_catch_spec (v : JValue) (reg : Bool) (h : HandlerOutcome) :
    on_message (some v) true .raiseOther = .propagatedFault ∧
      on_message (some v) true .raiseJsonDecodeError = .droppedLogged ∧
      on_message none reg h = .droppedLogged ∧
      on_message (some v) true .ok = .delivered v :=
  ⟨rfl, rfl, rfl, rfl⟩

end AiChat
